import Mathlib

/-!
Shallow embedding of `src/async-stores/index.ts` (the async-store core of the
svelte-store repository) and proofs about it.

The file embeds, in order:
* `getLoadState` — the state classifier (source lines 28-38);
* `tryLoadValue` — the load error-policy closure inside `asyncWritable`
  (source lines 83-93), with the mapping function's outcome passed as an
  argument since the closure merely awaits it;
* the construction-time behaviour of `asyncWritable` (source lines 56-105):
  the body calls `flagStoreCreated()`, creates the `loadState` cell iff
  `trackState`, initialises `ready := false`, declares (but never assigns)
  `currentLoadPromise` and `latestLoadAndSet`, defines the local closures,
  and ends WITHOUT a return statement, so the call evaluates to `undefined`;
* `loadThenSet` and `onFirstSubscribtion` — the two local closures, embedded
  as the lists of observable steps their bodies perform when invoked;
* `asyncDerived` (source lines 119-139), which destructures the result of
  `asyncWritable`; destructuring `undefined` raises a `TypeError`;
* `asyncReadable` (source lines 151-157).
-/

namespace AsyncStores

/-- Boolean flag record derived from a state tag, mirroring the `LoadState`
record built by `getLoadState`. -/
structure LoadState where
  isLoading : Bool
  isReloading : Bool
  isLoaded : Bool
  isWriting : Bool
  isError : Bool
  isPending : Bool
  isSettled : Bool
deriving DecidableEq, Repr

/-- Embedding of `getLoadState` (source lines 28-38). The source compares the
input tag with the five tag strings using `===`; the TypeScript input type
`State` is a union of the five string literals, but at runtime the function
accepts any string and simply performs the comparisons. -/
def getLoadState (stateString : String) : LoadState :=
  { isLoading := stateString == "LOADING"
    isReloading := stateString == "RELOADING"
    isLoaded := stateString == "LOADED"
    isWriting := stateString == "WRITING"
    isError := stateString == "ERROR"
    isPending := stateString == "LOADING" || stateString == "RELOADING"
    isSettled := stateString == "LOADED" || stateString == "ERROR" }

/-- The flag record with every flag false: what `getLoadState` produces on a
string that is none of the five tags. -/
def allFalseLoadState : LoadState :=
  ⟨false, false, false, false, false, false, false⟩

/-- Whether a string is one of the five recognized state tags. -/
def isKnownTag (s : String) : Bool :=
  s == "LOADING" || s == "RELOADING" || s == "LOADED" ||
    s == "WRITING" || s == "ERROR"

/-- Number of the five base flags (`isLoading`, `isReloading`, `isLoaded`,
`isWriting`, `isError`) that are set in a flag record. -/
def baseFlagCount (ls : LoadState) : Nat :=
  (if ls.isLoading then 1 else 0) + (if ls.isReloading then 1 else 0) +
    (if ls.isLoaded then 1 else 0) + (if ls.isWriting then 1 else 0) +
    (if ls.isError then 1 else 0)

/-- A JavaScript exception as observed by the catch block of `tryLoadValue`,
which inspects only `e.name`. -/
structure JsErr where
  name : String
deriving DecidableEq, Repr

/-- Observable outcome of one invocation of the `tryLoadValue` closure:
what the call returns or rethrows, the errors it passed to the `logError`
hook, and the content of the `loadState` cell afterwards. -/
structure TryLoadResult (T : Type) where
  result : Except JsErr T
  logged : List JsErr
  loadState : Option LoadState

/-- Embedding of the `tryLoadValue` closure (source lines 83-93).

The closure awaits `mappingLoadFunction(values)`; here that await's outcome
is the `outcome` argument (`Except.ok` a value, or `Except.error` a thrown
exception). On success the value is returned unchanged. On failure, when
`e.name !== 'AbortError'` the closure calls `logError(e)` and
`setState('ERROR')` and rethrows `e`; when the name is `'AbortError'` it
rethrows `e` with no logging and no state change. `setState` is
`loadState?.set(getLoadState(state))`: it writes the cell only when the
cell exists (i.e. when `trackState` was requested), modelled by the
`loadState : Option LoadState` argument holding the cell's current content. -/
def tryLoadValue {T : Type} (outcome : Except JsErr T)
    (loadState : Option LoadState) : TryLoadResult T :=
  match outcome with
  | .ok v => ⟨.ok v, [], loadState⟩
  | .error e =>
      if e.name ≠ "AbortError" then
        ⟨.error e, [e], loadState.map fun _ => getLoadState "ERROR"⟩
      else
        ⟨.error e, [], loadState⟩

/-- Options record destructured by `asyncWritable` (source line 67);
`AsyncStoreOptions` in `types.js`. -/
structure AsyncStoreOptions (T : Type) where
  reloadable : Bool := false
  trackState : Bool := false
  initial : Option T := none

/-- Capability record of a loadable store: which members the record carries.
The writable variant documented for `asyncWritable` would also carry `set`
and `update`; `asyncDerived` (source lines 131-138) builds a record with
`store`, `subscribe`, `load` always present and `reload`, `state`, `reset`
present conditionally. -/
structure Loadable where
  store : Bool
  subscribe : Bool
  load : Bool
  reload : Bool
  state : Bool
  reset : Bool
  set : Bool
  update : Bool
deriving DecidableEq, Repr

/-- Observable result of evaluating the body of `asyncWritable` (source
lines 56-105): its construction-time effects together with the value the
call evaluates to. -/
structure AsyncWritableResult where
  /-- `flagStoreCreated()` is called first (source line 66). -/
  storeCreatedFlagged : Bool
  /-- content of the `loadState` cell: created holding
  `getLoadState('LOADING')` iff `trackState`, else `undefined`
  (source lines 69-71). -/
  loadState : Option LoadState
  /-- the `ready` flag right after construction (source line 75). -/
  ready : Bool
  /-- the value the call evaluates to. The body ends without a `return`
  statement, so in JavaScript the call yields `undefined`, modelled as
  `none`; `some` would carry the capability record the documentation
  promises. -/
  returned : Option Loadable
deriving DecidableEq, Repr

/-- Embedding of `asyncWritable` (source lines 56-105) at construction time.

The body: calls `flagStoreCreated()`; destructures `options`; creates the
`loadState` writable cell holding `getLoadState('LOADING')` when
`trackState` is set, else leaves it `undefined`; defines the `setState`
closure; sets `ready = false`; declares `currentLoadPromise` and
`latestLoadAndSet` without assigning them; defines the local closures
`tryLoadValue`, `loadThenSet` and `onFirstSubscribtion` (embedded
separately); and then ends with no return statement, so the call evaluates
to `undefined`. No observable cell for the store's value is ever created,
`onFirstSubscribtion` is never registered with any store, and no generation
counter exists in the body. The `mappingWriteFunction` parameter records
whether a write function was supplied (source lines 59-63); the body never
uses it. -/
def asyncWritable {T : Type} (_mappingWriteFunction : Bool)
    (options : AsyncStoreOptions T) : AsyncWritableResult :=
  { storeCreatedFlagged := true
    loadState :=
      if options.trackState then some (getLoadState "LOADING") else none
    ready := false
    returned := none }

/-- One observable step performed by a closure of `asyncWritable` when
invoked; `invokeSet` is an invocation of the subscriber-facing `set`
callback that a `StartStopNotifier` receives. -/
inductive NotifierStep (T : Type) where
  | loadAllOnStores
  | setReadyTrue
  | invokeTryLoad
  | loadAllNoArgument
  | invokeSet (v : T)

/-- Number of `invokeSet` steps in a step list. -/
def setInvocations {T : Type} (steps : List (NotifierStep T)) : Nat :=
  (steps.filter fun s =>
    match s with
    | .invokeSet _ => true
    | _ => false).length

/-- Embedding of the `loadThenSet` closure (source line 95): its body is
empty, so an invocation performs no steps. -/
def loadThenSet (T : Type) : List (NotifierStep T) := []

/-- Embedding of the `onFirstSubscribtion` closure (source lines 97-104) as
the list of steps one invocation performs, assuming `loadAll(stores)`
resolves. The body starts an inner async function that awaits
`loadAll(stores)`, assigns `ready = true`, and calls `tryLoadValue(values)`
discarding its promise; it then awaits `loadAll()` called with no argument.
The `set` callback received from the store is never invoked, so no
`invokeSet` step occurs. -/
def onFirstSubscribtion (T : Type) : List (NotifierStep T) :=
  [.loadAllOnStores, .setReadyTrue, .invokeTryLoad, .loadAllNoArgument]

/-- A runtime exception raised by the surrounding JavaScript semantics
rather than thrown by user code; destructuring `undefined` raises
`typeError`. -/
inductive JsRuntimeError where
  | typeError
deriving DecidableEq, Repr

/-- Embedding of `asyncDerived` (source lines 119-139). It calls
`asyncWritable(stores, mappingLoadFunction, undefined, options)` (no write
function) and destructures `{ store, subscribe, load, reload, state, reset }`
from the result; destructuring `undefined` raises a `TypeError`. Had the
destructuring succeeded, the returned record would carry `store`,
`subscribe` and `load` unconditionally, `reload`/`state`/`reset` exactly
when the destructured fields are truthy (the conditional spreads, source
lines 135-137), and no `set` or `update` member. -/
def asyncDerived {T : Type} (options : AsyncStoreOptions T) :
    Except JsRuntimeError Loadable :=
  match (asyncWritable (T := T) false options).returned with
  | none => .error .typeError
  | some r =>
      .ok
        { store := r.store
          subscribe := r.subscribe
          load := r.load
          reload := r.reload
          state := r.state
          reset := r.reset
          set := false
          update := false }

/-- Embedding of `asyncReadable` (source lines 151-157): it is
`asyncDerived` on an empty dependency list with the provided initial value
merged into the options. -/
def asyncReadable {T : Type} (initial : T)
    (options : AsyncStoreOptions T) : Except JsRuntimeError Loadable :=
  asyncDerived { options with initial := some initial }

/-- C8: for every one of the five state tags, `getLoadState` sets exactly the
flag matching the tag among the five base flags, sets `isPending` exactly for
`LOADING` and `RELOADING`, and sets `isSettled` exactly for `LOADED` and
`ERROR`. -/
theorem getLoadState_five_tags :
    getLoadState "LOADING" = ⟨true, false, false, false, false, true, false⟩ ∧
    getLoadState "RELOADING" = ⟨false, true, false, false, false, true, false⟩ ∧
    getLoadState "LOADED" = ⟨false, false, true, false, false, false, true⟩ ∧
    getLoadState "WRITING" = ⟨false, false, false, true, false, false, false⟩ ∧
    getLoadState "ERROR" = ⟨false, false, false, false, true, false, true⟩ := by
  decide

/-- C10: `getLoadState` is total on strings (the embedding returns a record,
never fails): for every input string at most one of the five base flags is
true, and for an input that is none of the five tags every flag of the
result is false. -/
theorem getLoadState_total_safe (s : String) :
    baseFlagCount (getLoadState s) ≤ 1 ∧
    (isKnownTag s = false → getLoadState s = allFalseLoadState) := by
  by_cases h1 : s = "LOADING"
  · subst h1; decide
  by_cases h2 : s = "RELOADING"
  · subst h2; decide
  by_cases h3 : s = "LOADED"
  · subst h3; decide
  by_cases h4 : s = "WRITING"
  · subst h4; decide
  by_cases h5 : s = "ERROR"
  · subst h5; decide
  have e1 := beq_false_of_ne h1
  have e2 := beq_false_of_ne h2
  have e3 := beq_false_of_ne h3
  have e4 := beq_false_of_ne h4
  have e5 := beq_false_of_ne h5
  constructor
  · simp [baseFlagCount, getLoadState, e1, e2, e3, e4, e5]
  · intro _
    simp [getLoadState, allFalseLoadState, e1, e2, e3, e4, e5]

/-- C9 (counterexample): applying the classifier to the unrecognized tag
`"BOGUS"` is not fatal; the call returns a normal flag record (the one with
every flag false), contradicting the claim that an unrecognized tag is a
fatal programming error rather than a produced flag record. -/
theorem getLoadState_unrecognized_not_fatal :
    getLoadState "BOGUS" = allFalseLoadState := by
  decide

/-- C9 (amended): the classifier recognizes exactly the five tags `LOADING`,
`RELOADING`, `LOADED`, `WRITING`, `ERROR` — an input sets some flag of the
result exactly when it is one of the five; any other input is excluded
statically by the TypeScript input type, and at runtime it is not fatal: the
classifier returns the flag record with every flag false. -/
theorem getLoadState_recognizes_exactly_five (s : String) :
    getLoadState s ≠ allFalseLoadState ↔ isKnownTag s = true := by
  by_cases h1 : s = "LOADING"
  · subst h1; decide
  by_cases h2 : s = "RELOADING"
  · subst h2; decide
  by_cases h3 : s = "LOADED"
  · subst h3; decide
  by_cases h4 : s = "WRITING"
  · subst h4; decide
  by_cases h5 : s = "ERROR"
  · subst h5; decide
  have e1 := beq_false_of_ne h1
  have e2 := beq_false_of_ne h2
  have e3 := beq_false_of_ne h3
  have e4 := beq_false_of_ne h4
  have e5 := beq_false_of_ne h5
  simp [getLoadState, allFalseLoadState, isKnownTag, e1, e2, e3, e4, e5]

/-- C3: a load whose mapping function fails with the cancellation indicator
(an error named `AbortError`) never logs the error and leaves the tracked
`loadState` cell unchanged — in particular it never transitions it to
`ERROR`. -/
theorem tryLoadValue_abort_silent (T : Type) (e : JsErr)
    (ls : Option LoadState) (h : e.name = "AbortError") :
    (tryLoadValue (T := T) (.error e) ls).logged = [] ∧
    (tryLoadValue (T := T) (.error e) ls).loadState = ls := by
  simp [tryLoadValue, h]

/-- C3 (witness): an `AbortError` failure with state tracking on, at
`LOADING`: nothing is logged and the tracked state stays `LOADING`. -/
theorem tryLoadValue_abort_silent_witness :
    (tryLoadValue (T := Nat) (.error ⟨"AbortError"⟩)
      (some (getLoadState "LOADING"))).logged = [] ∧
    (tryLoadValue (T := Nat) (.error ⟨"AbortError"⟩)
      (some (getLoadState "LOADING"))).loadState =
        some (getLoadState "LOADING") :=
  tryLoadValue_abort_silent Nat ⟨"AbortError"⟩
    (some (getLoadState "LOADING")) rfl

/-- C4: a load whose mapping function fails for a non-cancellation reason
passes that error to the logging hook, transitions the tracked state cell to
the `ERROR` record whenever state tracking is enabled (the cell exists), and
rethrows the same error to the caller awaiting the load. -/
theorem tryLoadValue_failure_logged_and_rethrown (T : Type) (e : JsErr)
    (ls : Option LoadState) (h : e.name ≠ "AbortError") :
    (tryLoadValue (T := T) (.error e) ls).logged = [e] ∧
    (tryLoadValue (T := T) (.error e) ls).loadState =
      ls.map (fun _ => getLoadState "ERROR") ∧
    (tryLoadValue (T := T) (.error e) ls).result = .error e := by
  simp [tryLoadValue, h]

/-- C4 (witness): a failure named `Boom` with state tracking on, at
`LOADING`: the error is logged, the tracked state becomes the `ERROR`
record, and the same error is rethrown. -/
theorem tryLoadValue_failure_logged_and_rethrown_witness :
    (tryLoadValue (T := Nat) (.error ⟨"Boom"⟩)
      (some (getLoadState "LOADING"))).logged = [⟨"Boom"⟩] ∧
    (tryLoadValue (T := Nat) (.error ⟨"Boom"⟩)
      (some (getLoadState "LOADING"))).loadState =
        some (getLoadState "ERROR") ∧
    (tryLoadValue (T := Nat) (.error ⟨"Boom"⟩)
      (some (getLoadState "LOADING"))).result = .error ⟨"Boom"⟩ :=
  tryLoadValue_failure_logged_and_rethrown Nat ⟨"Boom"⟩
    (some (getLoadState "LOADING")) (by decide)

/-- C1 (code evaluated at the failing input): constructing a store with
`asyncWritable` yields `undefined` — the body has no return statement — so
the result carries no `load` member at all; no idempotent shared in-flight
`load()` exists to call. -/
theorem asyncWritable_exposes_no_load :
    (asyncWritable (T := Nat) false {}).returned = none := rfl

/-- C2 (code evaluated at the failing input): even with `reloadable` and
`trackState` requested, `asyncWritable` returns `undefined` — no reload
capability, no generation counter and no commit path exist — and the
tracked state cell is created at `LOADING` with nothing in the body ever
able to commit a dependency-driven reload result. -/
theorem asyncWritable_reloadable_no_commit :
    (asyncWritable (T := Nat) false
      { reloadable := true, trackState := true }).returned = none ∧
    (asyncWritable (T := Nat) false
      { reloadable := true, trackState := true }).loadState =
        some (getLoadState "LOADING") :=
  ⟨rfl, rfl⟩

/-- C5 (code evaluated at the failing input): even when a write function is
supplied, `asyncWritable` returns `undefined`, so the result carries no
`set` or `update` member; no optimistic update or `WRITING` transition can
be invoked. -/
theorem asyncWritable_write_function_exposes_no_set :
    (asyncWritable (T := Nat) true { initial := some 0 }).returned = none :=
  rfl

/-- C6 (code evaluated at the failing input): construction leaves `ready`
false and returns `undefined`, so no subscriber can ever attach to the
result; and the `onFirstSubscribtion` closure, were it ever invoked, never
calls the `set` callback it receives, so no loaded value would be
published. -/
theorem onFirstSubscribtion_never_publishes :
    (asyncWritable (T := Nat) false { trackState := true }).ready = false ∧
    setInvocations (onFirstSubscribtion Nat) = 0 ∧
    (asyncWritable (T := Nat) false { trackState := true }).returned =
      none :=
  ⟨rfl, rfl, rfl⟩

/-- C7 (code evaluated at the failing input): `asyncDerived` destructures
the `undefined` returned by `asyncWritable`, which raises a `TypeError` —
the constructor never returns a capability record at all. -/
theorem asyncDerived_raises_typeError :
    asyncDerived (T := Nat) {} = .error JsRuntimeError.typeError := rfl

end AsyncStores
